import Mathlib

/-!
Verification development for the path-normalization core of ArchiveWatch
(`src/archive_watch/core/utility/file_path.py` and
`src/archive_watch/core/errors/files.py`).

The Python module is shallowly embedded: a `pathlib.Path` value is modelled
by its textual form, the filesystem is an explicit environment of boolean
queries, and Python exceptions become an `Except` error type.  Every
definition below mirrors a source function of the repository (the line
numbers in the doc comments refer to `file_path.py`), except for the small
models of the `pathlib` library calls `expanduser`, `resolve` and `suffix`,
which follow CPython's documented behaviour.
-/

/-- Errors the module can raise.  `typeError` models Python's built-in
`TypeError`; `notAFileError` models `NotAFileError` from
`src/archive_watch/core/errors/files.py` (a `FileExistsError` subclass,
distinct from `TypeError`). -/
inductive PyErr where
  | typeError
  | notAFileError
deriving DecidableEq

/-- A Python value entering the module: either a raw string or a typed
`pathlib.Path`, the latter modelled by its textual form. -/
inductive PyVal where
  | str (s : String)
  | path (p : String)
deriving DecidableEq

/-- The filesystem as seen through the metadata queries the module issues:
`Path.is_file()`, `Path.is_dir()` and `Path.exists()`, each keyed by the
path's textual form.  No coherence between the three queries is built in;
where a claim needs an OS-like filesystem the coherence is an explicit
hypothesis. -/
structure FS where
  isFile : String → Bool
  isDir : String → Bool
  pathExists : String → Bool

/-- The ambient process state: the user's home directory (for `expanduser`),
the current working directory (for `resolve`) and the filesystem. -/
structure Env where
  home : String
  cwd : String
  fs : FS

/-- Whether the second character list begins with the first. -/
def startsWithChars : List Char → List Char → Bool
  | [], _ => true
  | _ :: _, [] => false
  | p :: ps, c :: cs => p = c && startsWithChars ps cs

/-- `String.startsWith`, computed structurally on the character lists. -/
def strStartsWith (s pat : String) : Bool :=
  startsWithChars pat.toList s.toList

/-- `String.drop`, computed structurally on the character list. -/
def strDrop (s : String) (n : Nat) : String :=
  String.mk (s.toList.drop n)

/-- `str.lower`, computed structurally on the character list. -/
def strToLower (s : String) : String :=
  String.mk (s.toList.map Char.toLower)

/-- Split a character list at `/`, accumulating the current component in
reverse. -/
def splitSlashAux : List Char → List Char → List String
  | [], acc => [String.mk acc.reverse]
  | c :: cs, acc =>
    if c = '/' then String.mk acc.reverse :: splitSlashAux cs []
    else splitSlashAux cs (c :: acc)

/-- Model of `pathlib.Path.expanduser` for the bare `~` shorthand: a leading
`~` component is replaced by the home directory.  (The `~user` form is left
unchanged; no claim depends on it.) -/
def expanduser (home p : String) : String :=
  if p = "~" then home
  else if strStartsWith p "~/" then home ++ strDrop p 1
  else p

/-- Model of `pathlib.Path.resolve`: a relative path is made absolute
against the working directory.  Symlink traversal is not modelled; the
source discards the result of this call, so no claim depends on its
value. -/
def resolvePath (cwd p : String) : String :=
  if strStartsWith p "/" then p else cwd ++ "/" ++ p

/-- The final component of a path's textual form, as `pathlib.PurePath.name`
computes it: the last component after splitting on the separator, with
empty and `.` components dropped. -/
def pyName (p : String) : String :=
  let comps := (splitSlashAux p.toList []).filter (fun c => c != "" && c != ".")
  match comps.getLast? with
  | some n => n
  | none => ""

/-- Index of the last `.` in a list of characters, if any (Python's
`str.rfind`). -/
def lastDotIdx : List Char → Option Nat
  | [] => none
  | c :: cs =>
    match lastDotIdx cs with
    | some i => some (i + 1)
    | none => if c = '.' then some 0 else none

/-- Model of `pathlib.PurePath.suffix` (CPython): with `name` the final
component and `i` the index of its last dot, return `name[i:]` when
`0 < i < len(name) - 1`, and the empty string otherwise. -/
def pySuffix (p : String) : String :=
  let name := pyName p
  let cs := name.toList
  match lastDotIdx cs with
  | some i => if 0 < i ∧ i < cs.length - 1 then String.mk (cs.drop i) else ""
  | none => ""

/-- `check_path_exists` (lines 167–191): raise `TypeError` unless the
argument is a `Path`, then report `Path.exists()`. -/
def check_path_exists (env : Env) (file_path : PyVal) : Except PyErr Bool :=
  match file_path with
  | .str _ => throw .typeError
  | .path p => pure (env.fs.pathExists p)

/-- `check_file` (lines 134–164): raise `TypeError` unless the argument is a
`Path`, call `check_path_exists` (its boolean result is discarded, exactly
as in the source), then report `Path.is_file()`. -/
def check_file (env : Env) (file_path : PyVal) : Except PyErr Bool :=
  match file_path with
  | .str _ => throw .typeError
  | .path p => do
    let _ ← check_path_exists env (.path p)
    pure (env.fs.isFile p)

/-- `check_dir` (lines 71–89): when `check_file` is false, return
`Path.is_dir()`; otherwise the Python function falls off its end and
returns `None`, modelled as `none`.  (The `.str` branch after a successful
`check_file` is unreachable, since `check_file` raises on raw strings.) -/
def check_dir (env : Env) (path : PyVal) : Except PyErr (Option Bool) := do
  let isf ← check_file env path
  if !isf then
    match path with
    | .path p => pure (some (env.fs.isDir p))
    | .str _ => throw .typeError
  else
    pure none

/-- The textual form of Python's empty path `Path()`, which `pathlib`
renders as `PosixPath('.')`. -/
def emptyPathText : String := "."

/-- `provision_path` restricted to `no_convert=True` (lines 352–364 with the
conversion branch closed): a raw string raises `TypeError`; for a `Path`,
`expanduser` and `resolve` are computed but their results are discarded —
the original value is returned, exactly as in the source, which never
reassigns `file_path`. -/
def provision_path_noconv (env : Env) (file_path : PyVal)
    (do_not_expand do_not_resolve : Bool) : Except PyErr PyVal :=
  match file_path with
  | .str _ => throw .typeError
  | .path p =>
    let _expanded := if !do_not_expand then expanduser env.home p else p
    let _resolved := if !do_not_resolve then resolvePath env.cwd p else p
    pure (.path p)

/-- `prepare_path` (lines 251–311).  Unless `no_convert`, a raw string is
replaced by `Path()` — the empty path, not a path built from the string
(line 298 of the source reads `path = Path()`).  Unless `no_provision`, the
result is provisioned with `no_convert=True` (lines 300–306).  Unless
`no_existing_check`, `check_path_exists` runs and its boolean result is
discarded (lines 308–309). -/
def prepare_path (env : Env) (path : PyVal)
    (do_not_expand do_not_resolve no_convert no_provision no_existing_check : Bool) :
    Except PyErr PyVal := do
  let path1 := if !no_convert then
      (match path with
       | .str _ => PyVal.path emptyPathText
       | x => x)
    else path
  let path2 ← if !no_provision then
      provision_path_noconv env path1 do_not_expand do_not_resolve
    else pure path1
  if !no_existing_check then
    discard (check_path_exists env path2)
  pure path2

/-- `provision_path` (lines 314–364): a raw string with conversion enabled
delegates to `prepare_path(file_path, do_not_expand, do_not_resolve)` —
positionally, so `no_convert`, `no_provision` and `no_existing_check` keep
their `False` defaults (line 354); a raw string with `no_convert=True`
raises `TypeError` (line 356); a `Path` has `expanduser`/`resolve` computed
and discarded (lines 358–363) and is returned unchanged (line 364). -/
def provision_path (env : Env) (file_path : PyVal)
    (do_not_expand do_not_resolve no_convert : Bool) : Except PyErr PyVal :=
  match file_path, no_convert with
  | .str s, false => prepare_path env (.str s) do_not_expand do_not_resolve false false false
  | .str _, true => throw .typeError
  | .path p, _ =>
    let _expanded := if !do_not_expand then expanduser env.home p else p
    let _resolved := if !do_not_resolve then resolvePath env.cwd p else p
    pure (.path p)

/-- `get_extension` (lines 194–248): unless `no_prepare`, run `prepare_path`
with the given `no_provision` / `no_existing_check` flags (keyword
arguments in the source, lines 232–237); require `check_file`, raising
`NotAFileError` otherwise (lines 239–240); take `Path.suffix` and strip a
leading dot unless `no_strip_dot` (lines 242–248).  (The `.str` branch
after a successful `check_file` is unreachable.) -/
def get_extension (env : Env) (file_path : PyVal)
    (no_provision no_strip_dot no_prepare no_existing_check : Bool) :
    Except PyErr String := do
  let fp ← if !no_prepare then
      prepare_path env file_path false false false no_provision no_existing_check
    else pure file_path
  let isf ← check_file env fp
  if !isf then
    throw .notAFileError
  else
    match fp with
    | .path p =>
      let suffix := pySuffix p
      if strStartsWith suffix "." ∧ !no_strip_dot then pure (strDrop suffix 1)
      else pure suffix
    | .str _ => throw .typeError

/-- `check_extension` (lines 92–131): unless `no_provision`, the source
calls `prepare_path(file_path, no_existing_check)` — positionally, so the
`no_existing_check` flag binds to `prepare_path`'s second parameter
`do_not_expand` and the remaining parameters keep their defaults (line
124).  Then `get_extension(file_path, no_provision=no_provision)` (line
126) and a lower-cased membership test against the allow-list (lines
128–131). -/
def check_extension (env : Env) (file_path : PyVal)
    (valid_extensions : List String) (no_provision no_existing_check : Bool) :
    Except PyErr Bool := do
  let fp ← if !no_provision then
      prepare_path env file_path no_existing_check false false false false
    else pure file_path
  let ext ← get_extension env fp no_provision false false false
  if valid_extensions.contains (strToLower ext) then pure true
  else pure false

/-- The argument tuple of a `prepare_path` call, in parameter order:
`do_not_expand`, `do_not_resolve`, `no_convert`, `no_provision`,
`no_existing_check`. -/
structure PrepareArgs where
  do_not_expand : Bool
  do_not_resolve : Bool
  no_convert : Bool
  no_provision : Bool
  no_existing_check : Bool
deriving DecidableEq

/-- The argument tuple of a `provision_path` call, in parameter order. -/
structure ProvisionArgs where
  do_not_expand : Bool
  do_not_resolve : Bool
  no_convert : Bool
deriving DecidableEq

/-- The arguments `check_extension` hands to `prepare_path` at line 124:
`prepare_path(file_path, no_existing_check)` is a positional call, so the
`no_existing_check` flag lands in `do_not_expand` and every remaining
parameter — `no_existing_check` included — keeps its `False` default. -/
def check_extension_prepare_args (no_existing_check : Bool) : PrepareArgs :=
  ⟨no_existing_check, false, false, false, false⟩

/-- Whether `prepare_path`, called with the given arguments, executes its
existence-check stage (line 308: `if not no_existing_check`). -/
def prepare_runs_existence_check (a : PrepareArgs) : Bool :=
  !a.no_existing_check

/-- The arguments `provision_path` hands to `prepare_path` when it delegates
a raw string (line 354): `prepare_path(file_path, do_not_expand,
do_not_resolve)` is a positional call, so `no_convert`, `no_provision` and
`no_existing_check` keep their `False` defaults. -/
def provision_to_prepare_args (do_not_expand do_not_resolve : Bool) : PrepareArgs :=
  ⟨do_not_expand, do_not_resolve, false, false, false⟩

/-- The arguments `prepare_path` hands to `provision_path` at lines 301–306:
`do_not_expand` and `do_not_resolve` are forwarded and `no_convert=True` is
passed explicitly. -/
def prepare_to_provision_args (do_not_expand do_not_resolve : Bool) : ProvisionArgs :=
  ⟨do_not_expand, do_not_resolve, true⟩

mutual

/-- Fuelled variant of `provision_path`, mutually recursive with `prepareF`
exactly as `provision_path` and `prepare_path` call each other in the
source; `none` means the recursion exhausted its fuel. -/
def provisionF : Nat → Env → PyVal → Bool → Bool → Bool → Option (Except PyErr PyVal)
  | 0, _, _, _, _, _ => none
  | fuel + 1, env, file_path, do_not_expand, do_not_resolve, no_convert =>
    match file_path, no_convert with
    | .str s, false => prepareF fuel env (.str s) do_not_expand do_not_resolve false false false
    | .str _, true => some (throw .typeError)
    | .path p, _ =>
      let _expanded := if !do_not_expand then expanduser env.home p else p
      let _resolved := if !do_not_resolve then resolvePath env.cwd p else p
      some (pure (.path p))

/-- Fuelled variant of `prepare_path`; see `provisionF`. -/
def prepareF : Nat → Env → PyVal → Bool → Bool → Bool → Bool → Bool → Option (Except PyErr PyVal)
  | 0, _, _, _, _, _, _, _ => none
  | fuel + 1, env, path, do_not_expand, do_not_resolve, no_convert, no_provision,
      no_existing_check =>
    let path1 := if !no_convert then
        (match path with
         | .str _ => PyVal.path emptyPathText
         | x => x)
      else path
    match (if !no_provision then
             provisionF fuel env path1 do_not_expand do_not_resolve true
           else some (pure path1)) with
    | none => none
    | some (.error e) => some (.error e)
    | some (.ok path2) =>
      if !no_existing_check then
        match check_path_exists env path2 with
        | .error e => some (.error e)
        | .ok _ => some (pure path2)
      else some (pure path2)

end

/-- A filesystem containing exactly the given regular files and nothing
else: no directories, and existence coincides with file membership. -/
def fsOfFiles (files : List String) : FS :=
  ⟨fun p => files.contains p, fun _ => false, fun p => files.contains p⟩

/-- A concrete environment with home directory `/home/u`, used to evaluate
the module on the inputs the claims mention. -/
def envA : Env :=
  ⟨"/home/u", "/cwd", fsOfFiles ["a.txt", "a.TXT", "b.md"]⟩

/-- A concrete environment whose filesystem holds one regular file `f.txt`
and one directory `d`. -/
def envB : Env :=
  ⟨"/home/u", "/cwd",
   ⟨fun p => p = "f.txt", fun p => p = "d", fun p => p = "f.txt" || p = "d"⟩⟩

/-- The separator-stripping step of `get_extension` (lines 244–248) as a
standalone function on suffix strings: remove a leading dot, and return any
other suffix (the empty string included) unmodified. -/
def stripDot (s : String) : String :=
  if strStartsWith s "." then strDrop s 1 else s

theorem prepare_path_on_path (env : Env) (p : String)
    (dne dnr nc np nec : Bool) :
    prepare_path env (.path p) dne dnr nc np nec = Except.ok (.path p) := by
  cases nc <;> cases np <;> cases nec <;> rfl

theorem get_extension_file_default (env : Env) (p : String)
    (h : env.fs.isFile p = true) :
    get_extension env (.path p) false false false false
      = Except.ok (stripDot (pySuffix p)) := by
  suffices hs : ∀ b : Bool, b = true →
      (if !b then (Except.error PyErr.notAFileError : Except PyErr String)
       else if strStartsWith (pySuffix p) "." ∧ !false
            then Except.ok (strDrop (pySuffix p) 1)
            else Except.ok (pySuffix p))
        = Except.ok (stripDot (pySuffix p)) by
    exact hs (env.fs.isFile p) h
  intro b hb
  subst hb
  show (if strStartsWith (pySuffix p) "." ∧ !false
        then (Except.ok (strDrop (pySuffix p) 1) : Except PyErr String)
        else Except.ok (pySuffix p))
      = Except.ok (stripDot (pySuffix p))
  unfold stripDot
  by_cases hc : strStartsWith (pySuffix p) "." = true
  · rw [if_pos ⟨hc, rfl⟩, if_pos hc]
  · rw [if_neg (fun hand => hc hand.1), if_neg hc]

theorem get_extension_file_nostrip (env : Env) (p : String)
    (h : env.fs.isFile p = true) :
    get_extension env (.path p) false true false false
      = Except.ok (pySuffix p) := by
  suffices hs : ∀ b : Bool, b = true →
      (if !b then (Except.error PyErr.notAFileError : Except PyErr String)
       else if strStartsWith (pySuffix p) "." ∧ !true
            then Except.ok (strDrop (pySuffix p) 1)
            else Except.ok (pySuffix p))
        = Except.ok (pySuffix p) by
    exact hs (env.fs.isFile p) h
  intro b hb
  subst hb
  show (if strStartsWith (pySuffix p) "." ∧ !true
        then (Except.ok (strDrop (pySuffix p) 1) : Except PyErr String)
        else Except.ok (pySuffix p))
      = Except.ok (pySuffix p)
  rw [if_neg (fun hand => Bool.noConfusion hand.2)]

/-- Claim C1: the spec requires `provision_path` with expansion and
resolution enabled to propagate the `expanduser`/`resolve` results into the
returned value, so that `provision_path(Path('~/x'))` with home `/home/u`
begins with `/home/u/x`.  Evaluating the code at that input: the call
returns the path `~/x` unchanged — the expansion result (which would be
`/home/u/x`) is computed but discarded, and the returned string does not
begin with `/home/u`. -/
theorem claim_C1_provision_discards :
    provision_path envA (.path "~/x") false false false
      = Except.ok (PyVal.path "~/x")
    ∧ expanduser envA.home "~/x" = "/home/u/x"
    ∧ strStartsWith "~/x" "/home/u" = false :=
  ⟨rfl, by decide, by decide⟩

/-- Claim C2: the spec requires `prepare_path` on a raw string (conversion
not skipped) to return a typed path whose string form is the given string.
Evaluating the code at the docstring's own example input
`prepare_path('~/Documents/test.txt', no_provision=True)`: line 298 reads
`path = Path()`, so the result is the empty path `.` — the input string is
discarded, and the same happens with provisioning enabled. -/
theorem claim_C2_convert_discards :
    prepare_path envA (.str "~/Documents/test.txt") false false false true false
      = Except.ok (PyVal.path ".")
    ∧ prepare_path envA (.str "~/Documents/test.txt") false false false false false
      = Except.ok (PyVal.path ".")
    ∧ ("." : String) ≠ "~/Documents/test.txt" :=
  ⟨rfl, rfl, by decide⟩

/-- Claim C3: the spec requires `check_extension` to pass its
`no_existing_check` flag through to `prepare_path`'s existence-check stage.
In the code the call is positional (`prepare_path(file_path,
no_existing_check)`, line 124), so the flag binds to `do_not_expand`
instead: with the flag set, `prepare_path` still receives
`no_existing_check = False` and its existence-check stage still runs. -/
theorem claim_C3_flag_misrouted :
    check_extension_prepare_args true
      = ⟨true, false, false, false, false⟩
    ∧ (check_extension_prepare_args true).do_not_expand = true
    ∧ (check_extension_prepare_args true).no_existing_check = false
    ∧ prepare_runs_existence_check (check_extension_prepare_args true) = true :=
  ⟨rfl, rfl, rfl, rfl⟩

/-- Claim C4: the spec requires that for an existing regular file,
`check_file` returns true and `check_dir` returns the boolean `False`, not
an absent value.  Evaluating the code on the existing regular file `a.txt`:
`check_file` is true, but `check_dir` falls off the end of the function and
returns `None` (modelled `none`), which is not the boolean `false`. -/
theorem claim_C4_check_dir_returns_none :
    check_file envA (.path "a.txt") = Except.ok true
    ∧ check_dir envA (.path "a.txt") = Except.ok none
    ∧ (none : Option Bool) ≠ some false :=
  ⟨rfl, rfl, by decide⟩

/-- Claim C5: `check_file` and `check_dir` never both report true (for any
argument, with no assumption on the filesystem: `check_dir` only queries
`is_dir` after `check_file` came back false), and on an OS-like filesystem
(where a regular file or directory also exists) a non-existent path gets
`false` from `check_file` and `Some false` from `check_dir`. -/
theorem claim_C5_exclusive_and_nonexistent (env : Env) (v : PyVal) (p : String)
    (hfe : env.fs.isFile p = true → env.fs.pathExists p = true)
    (hde : env.fs.isDir p = true → env.fs.pathExists p = true)
    (hne : env.fs.pathExists p = false) :
    ¬(check_file env v = Except.ok true ∧ check_dir env v = Except.ok (some true))
    ∧ (check_file env (.path p) = Except.ok false
       ∧ check_dir env (.path p) = Except.ok (some false)) := by
  have h1 : env.fs.isFile p = false := by
    cases hh : env.fs.isFile p
    · rfl
    · rw [hfe hh] at hne; exact Bool.noConfusion hne
  have h2 : env.fs.isDir p = false := by
    cases hh : env.fs.isDir p
    · rfl
    · rw [hde hh] at hne; exact Bool.noConfusion hne
  constructor
  · rintro ⟨hf, hd⟩
    cases v with
    | str s =>
      exact Except.noConfusion
        (show (Except.error PyErr.typeError : Except PyErr Bool) = Except.ok true from hf)
    | path q =>
      have hq : env.fs.isFile q = true :=
        Except.ok.inj
          (show (Except.ok (env.fs.isFile q) : Except PyErr Bool) = Except.ok true from hf)
      have hd' : (if !(env.fs.isFile q)
            then (Except.ok (some (env.fs.isDir q)) : Except PyErr (Option Bool))
            else Except.ok none)
          = Except.ok (some true) := hd
      rw [hq] at hd'
      exact Option.noConfusion (Except.ok.inj hd')
  · constructor
    · have e : check_file env (.path p) = Except.ok (env.fs.isFile p) := rfl
      rw [e, h1]
    · have e : check_dir env (.path p)
          = (if !(env.fs.isFile p)
             then (Except.ok (some (env.fs.isDir p)) : Except PyErr (Option Bool))
             else Except.ok none) := rfl
      rw [e, h1, h2]
      rfl

/-- Witness for claim C5 at a concrete environment: the file `b.md` and the
absent path `nope` in `envA`. -/
theorem claim_C5_exclusive_and_nonexistent_witness :
    ¬(check_file envA (.path "b.md") = Except.ok true
       ∧ check_dir envA (.path "b.md") = Except.ok (some true))
    ∧ (check_file envA (.path "nope") = Except.ok false
       ∧ check_dir envA (.path "nope") = Except.ok (some false)) :=
  claim_C5_exclusive_and_nonexistent envA (.path "b.md") "nope"
    (by decide) (by decide) (by decide)

/-- Claim C6: for a path that classifies as a regular file,
`check_extension` (default flags) returns true if and only if the
lower-cased extracted extension — the suffix with its leading dot stripped,
then lower-cased — is a member of the allow-list; the lower-casing makes
the comparison case-insensitive in the file's extension. -/
theorem claim_C6_check_extension_membership (env : Env) (p : String)
    (exts : List String) (h : env.fs.isFile p = true) :
    check_extension env (.path p) exts false false
      = Except.ok (exts.contains (strToLower (stripDot (pySuffix p))))
    ∧ (check_extension env (.path p) exts false false = Except.ok true
       ↔ strToLower (stripDot (pySuffix p)) ∈ exts) := by
  have hget := get_extension_file_default env p h
  have e2 : check_extension env (.path p) exts false false
      = Except.bind (get_extension env (.path p) false false false false)
          (fun ext => if exts.contains (strToLower ext)
                      then Except.ok true else Except.ok false) := rfl
  have e3 : check_extension env (.path p) exts false false
      = (if exts.contains (strToLower (stripDot (pySuffix p)))
         then Except.ok true else Except.ok false) := by
    rw [e2, hget]
    rfl
  constructor
  · rw [e3]
    cases hcon : exts.contains (strToLower (stripDot (pySuffix p))) <;> rfl
  · rw [e3]
    cases hcon : exts.contains (strToLower (stripDot (pySuffix p)))
    · constructor
      · intro hh
        have hh' : (Except.ok false : Except PyErr Bool) = Except.ok true := hh
        exact Bool.noConfusion (Except.ok.inj hh')
      · intro hmem
        have hc2 : exts.contains (strToLower (stripDot (pySuffix p))) = true :=
          List.elem_iff.mpr hmem
        rw [hcon] at hc2
        exact Bool.noConfusion hc2
    · constructor
      · intro _
        exact List.elem_iff.mp hcon
      · intro _
        rfl

/-- Witness for claim C6 at a concrete input: the regular file `a.TXT` of
`envA` against the lower-case allow-list `[txt]`; the match is
case-insensitive. -/
theorem claim_C6_check_extension_membership_witness :
    envA.fs.isFile "a.TXT" = true
    ∧ (check_extension envA (.path "a.TXT") ["txt"] false false
         = Except.ok ((["txt"] : List String).contains
             (strToLower (stripDot (pySuffix "a.TXT"))))
       ∧ (check_extension envA (.path "a.TXT") ["txt"] false false = Except.ok true
          ↔ strToLower (stripDot (pySuffix "a.TXT")) ∈ (["txt"] : List String))) :=
  ⟨by decide, claim_C6_check_extension_membership envA "a.TXT" ["txt"] (by decide)⟩

/-- Claim C7: on a path that does not classify as a regular file — a
directory or a non-existent path included — `get_extension` (default
flags) fails with `NotAFileError`, a signal distinct from `TypeError`, and
never returns a value. -/
theorem claim_C7_get_extension_not_a_file (env : Env) (p : String)
    (h : env.fs.isFile p = false) :
    get_extension env (.path p) false false false false
      = Except.error PyErr.notAFileError
    ∧ PyErr.notAFileError ≠ PyErr.typeError := by
  constructor
  · suffices hs : ∀ b : Bool, b = false →
        (if !b then (Except.error PyErr.notAFileError : Except PyErr String)
         else if strStartsWith (pySuffix p) "." ∧ !false
              then Except.ok (strDrop (pySuffix p) 1)
              else Except.ok (pySuffix p))
          = Except.error PyErr.notAFileError by
      exact hs (env.fs.isFile p) h
    intro b hb
    subst hb
    rfl
  · exact fun hh => PyErr.noConfusion hh

/-- Witness for claim C7 at a concrete input: the path `d` of `envB`, which
exists and is a directory, not a regular file. -/
theorem claim_C7_get_extension_not_a_file_witness :
    envB.fs.isFile "d" = false
    ∧ envB.fs.isDir "d" = true
    ∧ (get_extension envB (.path "d") false false false false
         = Except.error PyErr.notAFileError
       ∧ PyErr.notAFileError ≠ PyErr.typeError) :=
  ⟨by decide, by decide, claim_C7_get_extension_not_a_file envB "d" (by decide)⟩

/-- Claim C8: on a regular file, `get_extension` with default stripping
returns the suffix with the leading dot removed, and with `no_strip_dot`
returns the suffix unmodified; a suffix that does not begin with the dot
(the empty string included) is returned unmodified either way.  At a file
named `a.TXT` this gives `TXT` and `.TXT` respectively (see the
witness). -/
theorem claim_C8_get_extension_stripping (env : Env) (p : String)
    (h : env.fs.isFile p = true) :
    get_extension env (.path p) false false false false
      = Except.ok (stripDot (pySuffix p))
    ∧ get_extension env (.path p) false true false false
      = Except.ok (pySuffix p)
    ∧ (strStartsWith (pySuffix p) "." = true →
        stripDot (pySuffix p) = strDrop (pySuffix p) 1)
    ∧ (strStartsWith (pySuffix p) "." = false →
        stripDot (pySuffix p) = pySuffix p) := by
  refine ⟨get_extension_file_default env p h, get_extension_file_nostrip env p h,
    fun hs => ?_, fun hs => ?_⟩
  · unfold stripDot
    rw [if_pos hs]
  · unfold stripDot
    rw [if_neg (by rw [hs]; exact Bool.noConfusion)]

/-- Witness for claim C8 at the spec's own example: the regular file
`a.TXT`, whose extension is returned as `TXT` by default and `.TXT` with
stripping suppressed. -/
theorem claim_C8_get_extension_stripping_witness :
    envA.fs.isFile "a.TXT" = true
    ∧ get_extension envA (.path "a.TXT") false false false false = Except.ok "TXT"
    ∧ get_extension envA (.path "a.TXT") false true false false = Except.ok ".TXT" := by
  have hmain := claim_C8_get_extension_stripping envA "a.TXT" (by decide)
  refine ⟨by decide, ?_, ?_⟩
  · rw [hmain.1]
    rfl
  · rw [hmain.2.1]
    rfl

theorem provisionF_noconv (m : Nat) (env : Env) (w : PyVal) (dne dnr : Bool) :
    provisionF (m + 1) env w dne dnr true
      = some (provision_path_noconv env w dne dnr) := by
  cases w <;> rfl

theorem prepareF_eq (m : Nat) (env : Env) (v : PyVal) (dne dnr nc np nec : Bool) :
    prepareF (m + 2) env v dne dnr nc np nec
      = some (prepare_path env v dne dnr nc np nec) := by
  cases v <;> cases nc <;> cases np <;> cases nec <;> rfl

theorem provisionF_eq (k : Nat) (env : Env) (v : PyVal) (dne dnr nc : Bool) :
    provisionF (k + 3) env v dne dnr nc
      = some (provision_path env v dne dnr nc) := by
  cases v with
  | path p => rfl
  | str s =>
    cases nc with
    | true => rfl
    | false =>
      show prepareF (k + 2) env (.str s) dne dnr false false false
        = some (provision_path env (.str s) dne dnr false)
      rw [prepareF_eq]
      rfl

/-- Counterexample to claim C9 as stated: the delegation from
`provision_path` to `prepare_path` (line 354) is exactly the positional
call recorded by `provision_to_prepare_args`, and that call leaves
`no_convert` at its `False` default — it does not pass the no-convert
suppression. -/
theorem claim_C9_counterexample :
    provision_path envA (.str "~/x") false false false
      = prepare_path envA (.str "~/x")
          (provision_to_prepare_args false false).do_not_expand
          (provision_to_prepare_args false false).do_not_resolve
          (provision_to_prepare_args false false).no_convert
          (provision_to_prepare_args false false).no_provision
          (provision_to_prepare_args false false).no_existing_check
    ∧ (provision_to_prepare_args false false).no_convert = false
    ∧ ((provision_to_prepare_args false false).no_convert = true → False) :=
  ⟨rfl, rfl, fun hh => Bool.noConfusion hh⟩

/-- Claim C9 (amended): for every input value and every flag combination
the mutual recursion between `provision_path` and `prepare_path`
terminates — the fuelled transcription of the pair never exhausts a fuel
of three and computes the recursion-free unfolding.  The loop is not
broken where the claim says: the delegation from provision to prepare
(line 354) leaves `no_convert` at `False`; it is broken because prepare
converts the string to a typed path and prepare's own call back to
provision (lines 301–306) passes `no_convert=True`. -/
theorem claim_C9_termination (env : Env) (v : PyVal)
    (dne dnr nc np nec : Bool) (fuel : Nat) (h3 : 3 ≤ fuel) :
    provisionF fuel env v dne dnr nc = some (provision_path env v dne dnr nc)
    ∧ prepareF fuel env v dne dnr nc np nec
        = some (prepare_path env v dne dnr nc np nec)
    ∧ (prepare_to_provision_args dne dnr).no_convert = true
    ∧ (provision_to_prepare_args dne dnr).no_convert = false := by
  obtain ⟨k, rfl⟩ : ∃ k, fuel = k + 3 := ⟨fuel - 3, by omega⟩
  exact ⟨provisionF_eq k env v dne dnr nc,
    prepareF_eq (k + 1) env v dne dnr nc np nec, rfl, rfl⟩

/-- Witness for the amended claim C9 at a concrete input: a raw string path
with every flag at its default and fuel three. -/
theorem claim_C9_termination_witness :
    3 ≤ 3
    ∧ (provisionF 3 envA (.str "~/x") false false false
         = some (provision_path envA (.str "~/x") false false false)
       ∧ prepareF 3 envA (.str "~/x") false false false false false
         = some (prepare_path envA (.str "~/x") false false false false false)
       ∧ (prepare_to_provision_args false false).no_convert = true
       ∧ (provision_to_prepare_args false false).no_convert = false) :=
  ⟨by decide,
   claim_C9_termination envA (.str "~/x") false false false false false 3 (by decide)⟩

/-- Claim C10: `prepare_path` on a raw string with `no_convert` set never
yields a typed path — with provisioning active the provision step raises
`TypeError`; with provisioning skipped but the existence check active,
`check_path_exists` raises `TypeError`; with both skipped the raw string
comes back unchanged, still untyped. -/
theorem claim_C10_skip_convert (env : Env) (s : String) (dne dnr : Bool) :
    (∀ nec : Bool,
      prepare_path env (.str s) dne dnr true false nec = Except.error PyErr.typeError)
    ∧ prepare_path env (.str s) dne dnr true true false = Except.error PyErr.typeError
    ∧ prepare_path env (.str s) dne dnr true true true = Except.ok (PyVal.str s)
    ∧ (∀ (np nec : Bool) (p : String),
        prepare_path env (.str s) dne dnr true np nec ≠ Except.ok (PyVal.path p)) := by
  refine ⟨fun nec => by cases nec <;> rfl, rfl, rfl, fun np nec p => ?_⟩
  cases np with
  | false =>
    intro hh
    exact Except.noConfusion
      (show (Except.error PyErr.typeError : Except PyErr PyVal)
          = Except.ok (.path p) from hh)
  | true =>
    cases nec with
    | false =>
      intro hh
      exact Except.noConfusion
        (show (Except.error PyErr.typeError : Except PyErr PyVal)
            = Except.ok (.path p) from hh)
    | true =>
      intro hh
      exact PyVal.noConfusion
        (Except.ok.inj
          (show (Except.ok (PyVal.str s) : Except PyErr PyVal)
              = Except.ok (.path p) from hh))
